import Mathlib

/-!
Shallow embedding of `trackthis.py`: the UPS and USPS shipment-tracking
pipeline — request chunking, batch fetching with failure accounting, and
normalisation of carrier responses into one unified record shape.

Conventions used throughout:
* Python `None` is `Option.none`; a missing dictionary key is a `none`
  field of the corresponding structure.
* An exception the source does not catch surfaces as `Except.error`
  carrying the Python exception's name.
* A decoded XML/JSON node that may be either a single mapping or a list
  of mappings (the `xmltodict` convention: one occurrence of a repeated
  element decodes to a mapping, several to a list) is a `ListOr`.
* Machine floats occur only in the fail-rate comparison; it is modelled
  over `ℚ` with `0.05 = 1/20`, which agrees with the float comparison at
  every ratio `failed/total` the program can form for realistic batch
  sizes (the two ratios the spec tests, `2/20` and `1/20`, are exact in
  both models).
-/

set_option autoImplicit false

universe u

/-- A decoded node that is either a single mapping or a list of mappings. -/
inductive ListOr (α : Type u) : Type u
  | one (a : α) : ListOr α
  | many (l : List α) : ListOr α
  deriving DecidableEq, Repr

/-- Calendar timestamp as produced by `datetime.strptime` (naive, to
second precision). -/
structure DateTime where
  year : Nat
  month : Nat
  day : Nat
  hour : Nat
  minute : Nat
  second : Nat
  deriving DecidableEq, Repr

/-- Field values stored in a normalized tracking record: strings or
parsed datetimes. -/
inductive Val : Type
  | str (s : String) : Val
  | dt (d : DateTime) : Val
  deriving DecidableEq, Repr

/-- A normalized record is a Python dict: an association list from field
name to value, where a `none` value is Python `None`. -/
abbrev Record := List (String × Option Val)

/-- Gregorian leap-year test (as in Python's `datetime`). -/
def isLeapYear (y : Nat) : Bool :=
  (y % 4 == 0 && y % 100 != 0) || (y % 400 == 0)

/-- Number of days of month `m` in year `y`. -/
def daysInMonth (y m : Nat) : Nat :=
  if m = 2 then (if isLeapYear y then 29 else 28)
  else if m = 4 ∨ m = 6 ∨ m = 9 ∨ m = 11 then 30
  else 31

/-- Numeric value of a string of decimal digits. -/
def natOfDigits (l : List Char) : Nat :=
  l.foldl (fun a c => a * 10 + (c.toNat - 48)) 0

/-- All characters are decimal digits. -/
def allDigits (l : List Char) : Bool :=
  l.all Char.isDigit

/-- Range-checked `datetime` construction: `strptime` rejects a field
out of range (month, calendar day, hour, minute, second). -/
def mkDateTime (y mo d h mi s : Nat) : Option DateTime :=
  if 1 ≤ mo ∧ mo ≤ 12 ∧ 1 ≤ d ∧ d ≤ daysInMonth y mo ∧ h ≤ 23 ∧ mi ≤ 59 ∧ s ≤ 59 then
    some ⟨y, mo, d, h, mi, s⟩
  else none

/-- `datetime.strptime(s, "%Y%m%d%H%M%S")` (line 168), restricted to the
canonical 14-digit form: 4-digit year then 2-digit month, day, hour,
minute, second.  Strings containing a non-digit, or of another length,
fail exactly as in the source; degenerate variable-width encodings of
the same format are outside the modelled domain. -/
def strptimeUps (s : String) : Option DateTime :=
  let cs := s.data
  if cs.length = 14 ∧ allDigits cs = true then
    mkDateTime (natOfDigits (cs.take 4)) (natOfDigits ((cs.drop 4).take 2))
      (natOfDigits ((cs.drop 6).take 2)) (natOfDigits ((cs.drop 8).take 2))
      (natOfDigits ((cs.drop 10).take 2)) (natOfDigits ((cs.drop 12).take 2))
  else none

/-- English month names accepted by `%B`. -/
def monthNumber : String → Option Nat
  | "January" => some 1
  | "February" => some 2
  | "March" => some 3
  | "April" => some 4
  | "May" => some 5
  | "June" => some 6
  | "July" => some 7
  | "August" => some 8
  | "September" => some 9
  | "October" => some 10
  | "November" => some 11
  | "December" => some 12
  | _ => none

/-- One- or two-digit numeric token (`%d`, `%I`, `%M` match at most two
digits). -/
def parseNat1or2 (cs : List Char) : Option Nat :=
  if (cs.length = 1 ∨ cs.length = 2) ∧ allDigits cs = true then some (natOfDigits cs)
  else none

/-- Split on a separator character, Python `str.split(sep)` style:
adjacent separators give an empty token and the empty string gives one
empty token. -/
def splitChar (c : Char) : List Char → List (List Char)
  | [] => [[]]
  | x :: xs =>
    if x = c then [] :: splitChar c xs
    else
      match splitChar c xs with
      | [] => [[x]]
      | g :: gs => (x :: g) :: gs

/-- Python `str.upper()` (the carrier fields it is applied to are
ASCII). -/
def pyUpper (s : String) : String :=
  ⟨s.data.map Char.toUpper⟩

/-- `datetime.strptime(s, "%B %d, %Y %I:%M %p")` (line 330), restricted
to the canonical single-space English form, e.g. `January 1, 2024 09:30 AM`
(the `\s+` whitespace tolerance and case-insensitive month/AM-PM matching
of CPython's `_strptime` are outside the modelled domain). -/
def strptimeUsps (s : String) : Option DateTime :=
  match splitChar ' ' s.data with
  | [monthTok, dayTok, yearTok, timeTok, ampmTok] =>
    match monthNumber ⟨monthTok⟩ with
    | none => none
    | some mo =>
      if dayTok.getLast? = some ',' then
        match parseNat1or2 dayTok.dropLast with
        | none => none
        | some d =>
          if yearTok.length = 4 ∧ allDigits yearTok = true then
            let y := natOfDigits yearTok
            match splitChar ':' timeTok with
            | [hourTok, minTok] =>
              match parseNat1or2 hourTok, parseNat1or2 minTok with
              | some h12, some mi =>
                if 1 ≤ h12 ∧ h12 ≤ 12 then
                  if ampmTok = "AM".data then
                    mkDateTime y mo d (if h12 = 12 then 0 else h12) mi 0
                  else if ampmTok = "PM".data then
                    mkDateTime y mo d (if h12 = 12 then 12 else h12 + 12) mi 0
                  else none
                else none
              | _, _ => none
            | _ => none
          else none
      else none
  | _ => none

/-! ## UPS: status vocabulary and raw response shapes

Only the parts of the decoded UPS JSON that `_simplify_ups` reads are
represented.  Nodes whose absence no execution path of interest reaches
(`TrackResponse`, `Shipment`, `InquiryNumber`, a package's `Activity`
key) are represented as always present; `Option` marks exactly the
sub-fields whose absence the source either tolerates or crashes on. -/

/-- One entry of `self.ups_status_codes` (lines 30-41). -/
structure UpsCodeEntry where
  generalStatus : String
  upsStatus : String
  statusRank : Nat
  deriving DecidableEq, Repr

/-- The static UPS status vocabulary `self.ups_status_codes`
(lines 30-41); `none` is a native code absent from the table. -/
def upsStatusCodes : String → Option UpsCodeEntry
  | "X" => some ⟨"Exception", "Exception", 9⟩
  | "RS" => some ⟨"Return to Sender", "Returned to Shipper", 8⟩
  | "NA" => some ⟨"Not Available", "Not Available", 7⟩
  | "MV" => some ⟨"Cancelled", "Billing Information Voided", 6⟩
  | "M" => some ⟨"Pre-Shipment", "Billing Information Received", 5⟩
  | "P" => some ⟨"In Transit", "Pickup", 4⟩
  | "I" => some ⟨"In Transit", "In Transit", 3⟩
  | "O" => some ⟨"Out for Delivery", "Out for Delivery", 2⟩
  | "D" => some ⟨"Delivered", "Delivered", 1⟩
  | _ => none

/-- `ActivityLocation.Address` sub-object (lines 173-176). -/
structure UpsAddress where
  city : Option String
  stateProvinceCode : Option String
  countryCode : Option String
  deriving DecidableEq, Repr

/-- `Status` sub-object of one activity (its `Type` code and
`Description`). -/
structure UpsStatus where
  statusType : Option String
  description : Option String
  deriving DecidableEq, Repr

/-- One `Activity` record: status, split date/time strings, and the
optional `ActivityLocation.Address` (collapsed to one option: a missing
link anywhere in that chain raises `KeyError`, which line 178 catches). -/
structure UpsActivity where
  status : Option UpsStatus
  date : Option String
  time : Option String
  address : Option UpsAddress
  deriving DecidableEq, Repr

/-- The value of a package's `Activity` key: one record or a list. -/
abbrev ActNode := ListOr UpsActivity

/-- One `Package` record (only its `Activity` node is read). -/
structure UpsPackage where
  activity : ActNode
  deriving DecidableEq, Repr

/-- One decoded UPS response body, down to the fields `_simplify_ups`
reads: `TrackResponse.Shipment.Package` and
`TrackResponse.Shipment.InquiryNumber.Value`. -/
structure UpsResp where
  package : ListOr UpsPackage
  inquiryValue : Option String
  deriving DecidableEq, Repr

/-! ## UPS: response normaliser `_simplify_ups` (lines 130-186)

The Python local `overall_activity` is assigned only inside the
multi-package fold (line 149) or in the single-package branch
(line 153); it is *not* re-initialised per response, so a binding can
leak from one response of the loop into the next.  The loop below
threads that binding explicitly as `Option ActNode` (`none` = still
unbound; reading it unbound is a `NameError`). -/

/-- Lines 138-142: a package's own latest activity — the first element
when `Activity` is a list (`IndexError` on an empty list), else the
single record. -/
def pkgLatest (p : UpsPackage) : Except String UpsActivity :=
  match p.activity with
  | .many [] => .error "IndexError"
  | .many (a :: _) => .ok a
  | .one a => .ok a

/-- The status rank of an activity under `ups_status_codes`, with the
`try/except` default 0 of lines 144-147 (missing `Type`, or a code
absent from the table, raises `KeyError` inside the `try` and yields 0). -/
def rankOf (a : UpsActivity) : Nat :=
  match a.status with
  | none => 0
  | some st =>
    match st.statusType with
    | none => 0
    | some c =>
      match upsStatusCodes c with
      | none => 0
      | some e => e.statusRank

/-- Lines 143-147: `latest_activity.get("Status").get("Type")` then the
guarded table lookup.  A missing `Status` makes the second `.get` an
unguarded `AttributeError` on `None`; everything downstream is the
guarded rank. -/
def latestRank (a : UpsActivity) : Except String Nat :=
  match a.status with
  | none => .error "AttributeError"
  | some _ => .ok (rankOf a)

/-- Lines 137-150: the multi-package fold.  `acc` is the current binding
of `overall_activity` (possibly leaked from the previous response),
`accRank` the current `overall_rank` (re-initialised to 0 at line 136).
Assignment happens only under the strict comparison
`status_rank > overall_rank`. -/
def selectGo : List UpsPackage → Option ActNode → Nat → Except String (Option ActNode)
  | [], acc, _ => .ok acc
  | p :: rest, acc, accRank =>
    match pkgLatest p with
    | .error e => .error e
    | .ok lat =>
      match latestRank lat with
      | .error e => .error e
      | .ok r =>
        if accRank < r then selectGo rest (some (.one lat)) r
        else selectGo rest acc accRank

/-- Lines 135-151 (the `type(package_data) == list` branch): run the
fold, then line 151 reads `overall_activity`; if it is still unbound
that read is a `NameError`. -/
def selectOverall (leaked : Option ActNode) (pkgs : List UpsPackage) : Except String ActNode :=
  match selectGo pkgs leaked 0 with
  | .error e => .error e
  | .ok none => .error "NameError"
  | .ok (some n) => .ok n

/-- Lines 154-157: `package_activity` is the first element when
`overall_activity` is a list, else the record itself. -/
def pickPackageActivity (node : ActNode) : Except String UpsActivity :=
  match node with
  | .many [] => .error "IndexError"
  | .many (a :: _) => .ok a
  | .one a => .ok a

/-- The UPS record dict, keys in the initialisation order of
lines 159-165 (later value assignments do not reorder keys). -/
def mkUpsRecord (d tn loc st msg : Option Val) : Record :=
  [("checkpointDate", d), ("trackingNumber", tn), ("checkpointLocation", loc),
   ("trackingStatus", st), ("checkpointStatusMessage", msg)]

/-- Lines 159-185: build one simplified UPS record from the chosen
activity and the shipment's `InquiryNumber.Value`.  Steps appear in
source order, so the first uncaught exception is the one that
propagates: the unguarded `Date + Time` concatenation and `strptime`
(167-168), then the guarded location (172-179), then the unguarded
status-vocabulary indexing (181-182) whose `.get("general_status",
"Unknown")` default can never fire because every table entry carries
`general_status`. -/
def buildUpsRecord (tn : Option String) (pa : UpsActivity) : Except String Record :=
  match pa.date, pa.time with
  | some d, some t =>
    match strptimeUps (d ++ t) with
    | none => .error "ValueError"
    | some cpd =>
      let loc : Option Val :=
        match pa.address with
        | none => none
        | some ad =>
          some (.str (pyUpper ((ad.countryCode.getD "---") ++ ", " ++
            (ad.stateProvinceCode.getD "---") ++ ", " ++
            (ad.city.getD "---"))))
      match pa.status with
      | none => .error "KeyError"
      | some st =>
        match st.statusType with
        | none => .error "KeyError"
        | some code =>
          match upsStatusCodes code with
          | none => .error "KeyError"
          | some entry =>
            .ok (mkUpsRecord (some (.dt cpd)) (tn.map .str) loc
              (some (.str entry.generalStatus)) (st.description.map .str))
  | _, _ => .error "TypeError"

/-- Lines 132-185 for one response: resolve the activity (multi-package
fold or single package), pick `package_activity`, build the record.
Also returns the new binding of `overall_activity`, which leaks into
the next iteration. -/
def simplifyUpsStep (leaked : Option ActNode) (resp : UpsResp) :
    Except String (Record × Option ActNode) :=
  match resp.package with
  | .many pkgs =>
    match selectOverall leaked pkgs with
    | .error e => .error e
    | .ok node =>
      match pickPackageActivity node with
      | .error e => .error e
      | .ok pa =>
        match buildUpsRecord resp.inquiryValue pa with
        | .error e => .error e
        | .ok r => .ok (r, some node)
  | .one p =>
    match pickPackageActivity p.activity with
    | .error e => .error e
    | .ok pa =>
      match buildUpsRecord resp.inquiryValue pa with
      | .error e => .error e
      | .ok r => .ok (r, some p.activity)

/-- The response loop of `_simplify_ups`, threading the leaked
`overall_activity` binding. -/
def simplifyUpsGo : Option ActNode → List UpsResp → Except String (List Record)
  | _, [] => .ok []
  | leaked, resp :: rest =>
    match simplifyUpsStep leaked resp with
    | .error e => .error e
    | .ok (r, leaked') =>
      match simplifyUpsGo leaked' rest with
      | .error e => .error e
      | .ok rs => .ok (r :: rs)

/-- `UPS._simplify_ups` (lines 130-186): `overall_activity` starts
unbound. -/
def simplifyUps (resps : List UpsResp) : Except String (List Record) :=
  simplifyUpsGo none resps

/-! ## USPS: status vocabulary, decoded track entries, normaliser -/

/-- The static USPS status vocabulary `self.usps_status_codes`
(lines 215-224); it has no catch-all entry, so an unmapped category
looks up to `none`. -/
def uspsStatusCodes : String → Option String
  | "Delivered" => some "Delivered"
  | "Delivered to Agent" => some "Delivered"
  | "Alert" => some "Exception"
  | "In Transit" => some "In Transit"
  | "Out for Delivery" => some "Out for Delivery"
  | "Pre-Shipment" => some "Pre-Shipment"
  | "Delivery Attempt" => some "Delivered - Delivery Attempt"
  | "Available for Pickup" => some "Delivered - Available for Pickup"
  | _ => none

/-- The `TrackSummary` sub-mapping of one track entry. -/
structure UspsTrackSummary where
  eventTime : Option String
  eventDate : Option String
  eventCity : Option String
  eventState : Option String
  deriving DecidableEq, Repr

/-- One decoded `TrackInfo` mapping.  `errorNode` is the carrier's
per-identifier `Error` element (present when USPS reports a fault for
that identifier); the source never reads it. -/
structure UspsTrackInfo where
  id : Option String
  errorNode : Option String
  trackSummary : Option UspsTrackSummary
  status : Option String
  statusSummary : Option String
  statusCategory : Option String
  deriving DecidableEq, Repr

/-- The key list of the decoded `TrackInfo` mapping (attribute first,
then elements in document order), as iterated when `list.extend`
receives the mapping itself. -/
def UspsTrackInfo.dictKeys (t : UspsTrackInfo) : List String :=
  (if t.id.isSome then ["@ID"] else []) ++
  (if t.errorNode.isSome then ["Error"] else []) ++
  (if t.trackSummary.isSome then ["TrackSummary"] else []) ++
  (if t.status.isSome then ["Status"] else []) ++
  (if t.statusSummary.isSome then ["StatusSummary"] else []) ++
  (if t.statusCategory.isSome then ["StatusCategory"] else [])

/-- One element of `tracking_results` as seen by `_simplify_usps`: a
decoded track-entry mapping, or a bare string (a mapping key leaked by
`extend` when the decoded `TrackInfo` node was a single mapping). -/
inductive UspsEntry : Type
  | str (s : String) : UspsEntry
  | node (t : UspsTrackInfo) : UspsEntry
  deriving DecidableEq, Repr

/-- Line 312 `tracking_results.extend(json_resp)`: extending a Python
list with a list appends its elements; extending it with a mapping
appends the mapping's *keys*. -/
def pyExtend : ListOr UspsTrackInfo → List UspsEntry
  | .many l => l.map UspsEntry.node
  | .one t => t.dictKeys.map UspsEntry.str

/-- The USPS record dict, keys in the literal order of lines 345-351. -/
def mkUspsRecord (tn st cpd loc msg : Option Val) : Record :=
  [("trackingNumber", tn), ("trackingStatus", st), ("checkpointDate", cpd),
   ("checkpointLocation", loc), ("checkpointStatusMessage", msg)]

/-- Lines 320-352 for one entry.  `none` is the `continue` branch: on a
bare string, `i.get("@ID")` raises `AttributeError` and the entry is
skipped.  On a mapping every extraction is guarded: a missing
`TrackSummary` makes the chained `.get` calls raise (caught, date and
location fall back to `None`); a missing `EventDate`/`EventTime` makes
the string concatenation raise (caught); a missing `EventCity`/
`EventState` makes `.upper()` raise (caught); a missing `Status`/
`StatusSummary` makes the message concatenation raise (caught); the
status category is looked up with `dict.get`, absent or unmapped gives
`None`. -/
def simplifyUspsOne : UspsEntry → Option Record
  | .str _ => none
  | .node t =>
    let checkpointDate : Option Val :=
      match t.trackSummary with
      | none => none
      | some ts =>
        match ts.eventDate, ts.eventTime with
        | some d, some tm =>
          match strptimeUsps (d ++ " " ++ tm) with
          | some parsed => some (.dt parsed)
          | none => none
        | _, _ => none
    let loc : Option Val :=
      match t.trackSummary with
      | none => none
      | some ts =>
        match ts.eventCity, ts.eventState with
        | some c, some st => some (.str (pyUpper c ++ ", " ++ pyUpper st ++ ", US"))
        | _, _ => none
    let msg : Option Val :=
      match t.status, t.statusSummary with
      | some a, some b => some (.str (a ++ " - " ++ b))
      | _, _ => none
    some (mkUspsRecord (t.id.map .str)
      ((t.statusCategory.bind uspsStatusCodes).map .str) checkpointDate loc msg)

/-- `USPS._simplify_usps` (lines 318-353). -/
def simplifyUsps (entries : List UspsEntry) : List Record :=
  entries.filterMap simplifyUspsOne

/-! ## Request chunking (lines 43-61 / 226-244) and the batch fetchers -/

/-- `chunk_list(chunk_size, whole_list)`:
`[whole_list[i : i + chunk_size] for i in range(0, len(whole_list), chunk_size)]`.
`range` with step 0 raises in Python; that case is outside the modelled
domain (the program only ever passes 10) and returns `[]` here. -/
def chunkList {α : Type u} : Nat → List α → List (List α)
  | _, [] => []
  | 0, _ :: _ => []
  | k + 1, a :: l => ((a :: l).take (k + 1)) :: chunkList (k + 1) ((a :: l).drop (k + 1))
termination_by _ l => l.length
decreasing_by simp [List.length_drop]; omega

/-- Line 259: the USPS request builder chunks the tracking list with the
fixed chunk size 10. -/
def trackUspsChunks (trackingList : List String) : List (List String) :=
  chunkList 10 trackingList

/-- Oracle outcome of one UPS request (`session.get` + `resp.json()`):
the decoded body carries a `Fault` key, or is a good body, or the
awaited call raises. -/
inductive UpsNetResp : Type
  | fault : UpsNetResp
  | ok (r : UpsResp) : UpsNetResp
  | transportError (msg : String) : UpsNetResp
  deriving DecidableEq, Repr

/-- Lines 116-124: the UPS fetch loop over (InquiryNumber, outcome)
pairs.  A body with `Fault` records the identifier as failed; a good
body is appended; a raised exception is unguarded and propagates. -/
def trackUpsGo : List (String × UpsNetResp) → List UpsResp → Nat →
    Except String (List UpsResp × Nat)
  | [], acc, failed => .ok (acc, failed)
  | (_, .transportError m) :: _, _, _ => .error m
  | (_, .fault) :: rest, acc, failed => trackUpsGo rest acc (failed + 1)
  | (_, .ok r) :: rest, acc, failed => trackUpsGo rest (acc ++ [r]) failed

/-- Line 126's comparison `fail_rate > 0.05` with
`fail_rate = failed / total`, carried out in exact integer arithmetic:
for `0 < total` it is `20 * failed > total` (`failRateWarning_iff`
below proves the equivalence with the exact rational comparison). -/
def failRateWarning (failed total : Nat) : Bool :=
  decide (total < 20 * failed)

/-- For a positive total, the integer comparison of `failRateWarning`
is the rational comparison `failed / total > 1/20` that line 126
performs (with `0.05 = 1/20`). -/
theorem failRateWarning_iff (failed total : Nat) (h : 0 < total) :
    failRateWarning failed total = true ↔ (failed : ℚ) / (total : ℚ) > 1 / 20 := by
  have ht : (0 : ℚ) < (total : ℚ) := by exact_mod_cast h
  rw [failRateWarning, decide_eq_true_eq, gt_iff_lt, div_lt_div_iff₀ (by norm_num) ht]
  rw [one_mul]
  constructor
  · intro hlt
    have h2 : total < failed * 20 := by omega
    exact_mod_cast h2
  · intro hlt
    have h2 : total < failed * 20 := by exact_mod_cast hlt
    omega

/-- `UPS._track_ups` (lines 103-128): run the loop, then compute
`fail_rate = len(ups_failed) / len(ups_requests)` — a
`ZeroDivisionError` when the request list is empty — and decide the
warning `fail_rate > 0.05`.  Returns the successful raw responses and
whether the warning was printed. -/
def trackUpsFetch (reqs : List (String × UpsNetResp)) :
    Except String (List UpsResp × Bool) :=
  match trackUpsGo reqs [] 0 with
  | .error e => .error e
  | .ok (res, failed) =>
    if reqs.length = 0 then .error "ZeroDivisionError"
    else .ok (res, failRateWarning failed reqs.length)

/-- `track_ups` down to the fetch: `_create_ups_request` builds one
payload per tracking number (lines 84-101), the oracle gives each
payload's network outcome. -/
def trackUps (oracle : String → UpsNetResp) (trackingList : List String) :
    Except String (List UpsResp × Bool) :=
  trackUpsFetch (trackingList.map (fun t => (t, oracle t)))

/-- Oracle outcome of one USPS request: a decoded
`TrackResponse.TrackInfo` node (a single mapping or a list of
mappings), or a raised transport/decoding exception. -/
inductive UspsNetResp : Type
  | ok (node : ListOr UspsTrackInfo) : UspsNetResp
  | transportError (msg : String) : UspsNetResp
  deriving DecidableEq, Repr

/-- Lines 304-316 `_track_usps`: a sequential loop over (request URL,
outcome) pairs guarded by one broad `try`.  The first raised exception
prints `Failed at request <url>` and returns what was accumulated so
far; otherwise every decoded node is flattened into the result list via
`extend`.  Returns the entry list and the emitted diagnostic, if any. -/
def trackUspsGo : List (String × UspsNetResp) → List UspsEntry →
    List UspsEntry × Option String
  | [], acc => (acc, none)
  | (url, .transportError _) :: _, acc => (acc, some ("Failed at request " ++ url))
  | (_, .ok node) :: rest, acc => trackUspsGo rest (acc ++ pyExtend node)

/-- `USPS._track_usps` over a batch of requests. -/
def trackUspsFetch (reqs : List (String × UspsNetResp)) :
    List UspsEntry × Option String :=
  trackUspsGo reqs []

/-- Modelled from the spec: a "per-identifier carrier fault" for USPS is
a track entry whose `Error` node is present (§7 of the spec).  The
source never counts these; this definition exists only to *state* how
many faults a batch of responses contains. -/
def specUspsFaultCount (reqs : List (String × UspsNetResp)) : Nat :=
  (reqs.map (fun x =>
    match x.2 with
    | .ok (.many l) => (l.filter (fun t => t.errorNode.isSome)).length
    | .ok (.one t) => if t.errorNode.isSome then 1 else 0
    | .transportError _ => 0)).sum

/-! ## Decidability plumbing and concrete sample inputs -/

instance {ε α : Type} [DecidableEq ε] [DecidableEq α] : DecidableEq (Except ε α) := fun a b =>
  match a, b with
  | .error x, .error y =>
    if h : x = y then .isTrue (congrArg Except.error h)
    else .isFalse (fun hh => h (by injection hh))
  | .error _, .ok _ => .isFalse (fun hh => Except.noConfusion hh)
  | .ok _, .error _ => .isFalse (fun hh => Except.noConfusion hh)
  | .ok x, .ok y =>
    if h : x = y then .isTrue (congrArg Except.ok h)
    else .isFalse (fun hh => h (by injection hh))

/-- Key order of every UPS record (initialisation order, lines 159-165). -/
def upsKeyOrder : List String :=
  ["checkpointDate", "trackingNumber", "checkpointLocation", "trackingStatus",
   "checkpointStatusMessage"]

/-- Key order of every USPS record (literal order, lines 345-351). -/
def uspsKeyOrder : List String :=
  ["trackingNumber", "trackingStatus", "checkpointDate", "checkpointLocation",
   "checkpointStatusMessage"]

theorem lookup_ups_date (a b c d e : Option Val) :
    List.lookup "checkpointDate" (mkUpsRecord a b c d e) = some a := rfl

theorem lookup_ups_location (a b c d e : Option Val) :
    List.lookup "checkpointLocation" (mkUpsRecord a b c d e) = some c := rfl

theorem lookup_usps_number (a b c d e : Option Val) :
    List.lookup "trackingNumber" (mkUspsRecord a b c d e) = some a := rfl

theorem lookup_usps_status (a b c d e : Option Val) :
    List.lookup "trackingStatus" (mkUspsRecord a b c d e) = some b := rfl

theorem lookup_usps_date (a b c d e : Option Val) :
    List.lookup "checkpointDate" (mkUspsRecord a b c d e) = some c := rfl

theorem lookup_usps_location (a b c d e : Option Val) :
    List.lookup "checkpointLocation" (mkUspsRecord a b c d e) = some d := rfl

/-- A fully populated delivered UPS activity (code `D`,
`2024-01-01 09:30:00`, Louisville / KY / US). -/
def upsActLouisville : UpsActivity :=
  ⟨some ⟨some "D", some "DELIVERED"⟩, some "20240101", some "093000",
    some ⟨some "Louisville", some "KY", some "US"⟩⟩

/-- A single-package UPS response around `upsActLouisville`. -/
def upsRespLouisville : UpsResp :=
  ⟨.one ⟨.one upsActLouisville⟩, some "1Z999AA10123456784"⟩

/-- The record `_simplify_ups` builds from `upsRespLouisville`. -/
def upsRecordLouisville : Record :=
  mkUpsRecord (some (.dt ⟨2024, 1, 1, 9, 30, 0⟩))
    (some (.str "1Z999AA10123456784")) (some (.str "US, KY, LOUISVILLE"))
    (some (.str "Delivered")) (some (.str "DELIVERED"))

/-- A UPS response whose activity carries the native status code `ZZ`,
which is absent from `ups_status_codes`. -/
def upsRespUnmapped : UpsResp :=
  ⟨.one ⟨.one ⟨some ⟨some "ZZ", some "Mystery"⟩, some "20240101", some "093000", none⟩⟩,
    some "1Z0"⟩

/-- A two-package UPS response in which both packages carry unmapped
native codes, so both status ranks are 0. -/
def upsRespZeroRanks : UpsResp :=
  ⟨.many [⟨.one ⟨some ⟨some "Q1", none⟩, some "20240101", some "093000", none⟩⟩,
          ⟨.one ⟨some ⟨some "Q2", none⟩, some "20240102", some "100000", none⟩⟩],
    some "1Z1"⟩

/-- A fully populated USPS track summary (Louisville / KY,
`January 1, 2024 09:30 AM`). -/
def uspsSummaryLouisville : UspsTrackSummary :=
  ⟨some "09:30 AM", some "January 1, 2024", some "Louisville", some "KY"⟩

/-- A fully populated, well-formed USPS track entry. -/
def uspsInfoGood : UspsTrackInfo :=
  ⟨some "9400X", none, some uspsSummaryLouisville, some "Delivered",
    some "Left at door", some "Delivered"⟩

/-- The record `_simplify_usps` builds from `uspsInfoGood`. -/
def uspsRecGood : Record :=
  mkUspsRecord (some (.str "9400X")) (some (.str "Delivered"))
    (some (.dt ⟨2024, 1, 1, 9, 30, 0⟩)) (some (.str "LOUISVILLE, KY, US"))
    (some (.str "Delivered - Left at door"))

/-- A USPS track entry whose `StatusCategory` is absent from
`usps_status_codes`. -/
def uspsInfoUnmapped : UspsTrackInfo :=
  ⟨some "9400Y", none, none, none, none, some "Bogus Category"⟩

/-- The record `_simplify_usps` builds from `uspsInfoUnmapped`. -/
def uspsRecUnmapped : Record :=
  mkUspsRecord (some (.str "9400Y")) none none none none

/-- A USPS track entry reporting a per-identifier carrier fault (an
`Error` element instead of tracking data). -/
def uspsFaultInfo : UspsTrackInfo :=
  ⟨some "9400E", some "There is no record of this item", none, none, none, none⟩

/-! ## Claims settled by direct evaluation -/

/-- Claim C1: the spec says a native status code absent from the
carrier's vocabulary resolves to the catch-all `Unknown` for UPS and to
an unset `trackingStatus` for USPS.  The USPS half holds (`dict.get` on
the vocabulary gives `None`), but the UPS half does not: line 182
indexes `self.ups_status_codes[ups_code]` *before* the
`.get("general_status", "Unknown")` default can apply, so an unmapped
code raises `KeyError` and normalisation of the whole batch aborts;
the `Unknown` default is dead code.  Evaluated here at a response whose
activity carries the unmapped code `ZZ`. -/
theorem upsUnmappedStatus_raises_keyError :
    upsStatusCodes "ZZ" = none ∧
    simplifyUps [upsRespUnmapped] = .error "KeyError" ∧
    uspsStatusCodes "Bogus Category" = none ∧
    simplifyUspsOne (.node uspsInfoUnmapped) = some uspsRecUnmapped ∧
    List.lookup "trackingStatus" uspsRecUnmapped = some none := by decide

/-- Claim C4: the spec says every well-formed successfully fetched
response normalises to exactly one record, "including Carrier B (USPS)
batches that contain only a single track entry".  For a single-entry
batch the decoded `TrackInfo` node is a mapping, not a list;
`tracking_results.extend` then appends the mapping's *keys* (bare
strings), each of which `_simplify_usps` skips, so the batch yields
zero records — whereas the same entry inside a list yields exactly one
record carrying its tracking number. -/
theorem uspsSingleEntryBatch_zeroRecords :
    simplifyUsps (pyExtend (.one uspsInfoGood)) = [] ∧
    simplifyUsps (pyExtend (.many [uspsInfoGood])) = [uspsRecGood] ∧
    List.lookup "trackingNumber" uspsRecGood = some (some (.str "9400X")) := by decide

/-- Claim C9: calling the UPS entry point with an empty tracking list
reaches `fail_rate = len(ups_failed) / len(ups_requests)` with zero
payloads, raising `ZeroDivisionError` instead of returning an empty
result list — for any network oracle, since no request is ever made. -/
theorem trackUps_empty_zeroDivision (oracle : String → UpsNetResp) :
    trackUps oracle [] = .error "ZeroDivisionError" := rfl

/-- Claim C2, counterexample: the claimed uniform location format
`"COUNTRY, STATE/PROVINCE, CITY"` fails for USPS.  For
city `Louisville`, state `KY` the USPS normaliser emits
`"LOUISVILLE, KY, US"` — city first, fixed country `"US"` last — not
the `"US, KY, LOUISVILLE"` the claimed format prescribes for these
components. -/
theorem uspsLocation_cityFirst_cex :
    simplifyUspsOne (.node uspsInfoGood) = some uspsRecGood ∧
    List.lookup "checkpointLocation" uspsRecGood = some (some (.str "LOUISVILLE, KY, US")) ∧
    "LOUISVILLE, KY, US" ≠ "US, KY, LOUISVILLE" := by decide

/-- Claim C3, counterexample: the claim says *every* tie is resolved in
favour of the first-seen record.  When all package ranks are 0 (two
unmapped codes here) the strict `>` against the initial `overall_rank = 0`
never assigns `overall_activity`, and line 151 reads the unbound local:
a `NameError`, not the first-seen record. -/
theorem upsZeroRankTie_raises_nameError :
    rankOf ⟨some ⟨some "Q1", none⟩, some "20240101", some "093000", none⟩ = 0 ∧
    rankOf ⟨some ⟨some "Q2", none⟩, some "20240102", some "100000", none⟩ = 0 ∧
    simplifyUps [upsRespZeroRanks] = .error "NameError" := by decide

/-- A 20-request USPS batch in which exactly two requests come back as
per-identifier carrier faults (`Error` entries) and the rest succeed. -/
def uspsBatch20 : List (String × UspsNetResp) :=
  List.replicate 18 ("https-ok", UspsNetResp.ok (.many [uspsInfoGood])) ++
  [("https-f1", .ok (.many [uspsFaultInfo])), ("https-f2", .ok (.many [uspsFaultInfo]))]

/-- Claim C5, counterexample: the claim says *every* batch fetch
computes a fail rate and warns iff it exceeds 5%.  The USPS fetch loop
contains no fail-rate computation at all: 20 requests with 2 carrier
faults (10% > 5%) complete with no diagnostic emitted. -/
theorem uspsNoFailRateWarning_cex :
    uspsBatch20.length = 20 ∧
    specUspsFaultCount uspsBatch20 = 2 ∧
    (trackUspsFetch uspsBatch20).2 = none := by decide

/-! ## Multi-package selection: the first strictly greater rank wins -/

/-- The pure selection fold over already-extracted latest activities,
mirroring `selectGo` once extraction is known to succeed. -/
def selGo : List UpsActivity → Option ActNode → Nat → Option ActNode
  | [], acc, _ => acc
  | a :: rest, acc, r =>
    if r < rankOf a then selGo rest (some (.one a)) (rankOf a)
    else selGo rest acc r

theorem latestRank_of_isSome (a : UpsActivity) (h : a.status.isSome) :
    latestRank a = .ok (rankOf a) := by
  cases hs : a.status with
  | none => rw [hs] at h; cases h
  | some st => simp [latestRank, hs]

theorem selectGo_eq_selGo :
    ∀ (pkgs : List UpsPackage) (lats : List UpsActivity),
      List.Forall₂ (fun p a => pkgLatest p = Except.ok a) pkgs lats →
      (∀ a ∈ lats, a.status.isSome) →
      ∀ (acc : Option ActNode) (r : Nat), selectGo pkgs acc r = .ok (selGo lats acc r) := by
  intro pkgs lats h
  induction h with
  | nil => intro _ acc r; rfl
  | cons hpa hrest ih =>
    rename_i p a pkgs' lats'
    intro hst acc r
    have ha : a.status.isSome := hst a (List.mem_cons_self a lats')
    simp only [selectGo, hpa, latestRank_of_isSome a ha, selGo]
    by_cases hc : r < rankOf a
    · rw [if_pos hc, if_pos hc]
      exact ih (fun b hb => hst b (List.mem_cons_of_mem a hb)) _ _
    · rw [if_neg hc, if_neg hc]
      exact ih (fun b hb => hst b (List.mem_cons_of_mem a hb)) _ _

theorem selGo_of_le :
    ∀ (lats : List UpsActivity) (acc : Option ActNode) (r : Nat),
      (∀ a ∈ lats, rankOf a ≤ r) → selGo lats acc r = acc
  | [], _, _, _ => rfl
  | a :: rest, acc, r, h => by
    have ha := h a (List.mem_cons_self a rest)
    rw [selGo, if_neg (by omega)]
    exact selGo_of_le rest acc r (fun b hb => h b (List.mem_cons_of_mem a hb))

theorem selGo_first_max :
    ∀ (lats : List UpsActivity) (i : Nat) (hi : i < lats.length)
      (acc : Option ActNode) (r : Nat),
      r < rankOf (lats.get ⟨i, hi⟩) →
      (∀ a ∈ lats, rankOf a ≤ rankOf (lats.get ⟨i, hi⟩)) →
      (∀ j (hj : j < lats.length), j < i →
        rankOf (lats.get ⟨j, hj⟩) < rankOf (lats.get ⟨i, hi⟩)) →
      selGo lats acc r = some (.one (lats.get ⟨i, hi⟩))
  | [], i, hi, _, _, _, _, _ => absurd hi (by simp)
  | a :: rest, 0, hi, acc, r, hr, hmax, _ => by
    have hget : (a :: rest).get ⟨0, hi⟩ = a := rfl
    rw [hget] at hr hmax ⊢
    rw [selGo, if_pos hr]
    exact selGo_of_le rest _ _ (fun b hb => hmax b (List.mem_cons_of_mem a hb))
  | a :: rest, i + 1, hi, acc, r, hr, hmax, hfirst => by
    have hi' : i < rest.length := by
      have := hi; simp only [List.length_cons] at this; omega
    have hget : (a :: rest).get ⟨i + 1, hi⟩ = rest.get ⟨i, hi'⟩ := rfl
    rw [hget] at hr hmax hfirst ⊢
    have ha_lt : rankOf a < rankOf (rest.get ⟨i, hi'⟩) :=
      hfirst 0 (by simp) (Nat.succ_pos i)
    rw [selGo]
    by_cases hc : r < rankOf a
    · rw [if_pos hc]
      exact selGo_first_max rest i hi' _ (rankOf a) ha_lt
        (fun b hb => hmax b (List.mem_cons_of_mem a hb))
        (fun j hj hji => hfirst (j + 1) (by simpa using Nat.succ_lt_succ hj)
          (Nat.succ_lt_succ hji))
    · rw [if_neg hc]
      exact selGo_first_max rest i hi' acc r hr
        (fun b hb => hmax b (List.mem_cons_of_mem a hb))
        (fun j hj hji => hfirst (j + 1) (by simpa using Nat.succ_lt_succ hj)
          (Nat.succ_lt_succ hji))

/-- Claim C3 (amended): over the packages of one UPS response, provided
every package's latest activity extracts cleanly (its `Activity` is
non-empty and carries a `Status`) and the maximal rank is positive, the
fold of lines 137-151 selects the latest activity of the first package
attaining the maximal rank — the strict `>` comparison resolves ties in
favour of the first-seen record, for any leaked prior binding of
`overall_activity`.  (When every rank is 0 the claim fails: see the
all-zero counterexample, where the fold raises `NameError` instead.) -/
theorem upsMultiPackage_highestRank_firstSeen
    (pkgs : List UpsPackage) (lats : List UpsActivity)
    (hpl : List.Forall₂ (fun p a => pkgLatest p = Except.ok a) pkgs lats)
    (hst : ∀ a ∈ lats, a.status.isSome)
    (i : Nat) (hi : i < lats.length)
    (hpos : 0 < rankOf (lats.get ⟨i, hi⟩))
    (hmax : ∀ a ∈ lats, rankOf a ≤ rankOf (lats.get ⟨i, hi⟩))
    (hfirst : ∀ j (hj : j < lats.length), j < i →
      rankOf (lats.get ⟨j, hj⟩) < rankOf (lats.get ⟨i, hi⟩))
    (leaked : Option ActNode) :
    selectOverall leaked pkgs = .ok (.one (lats.get ⟨i, hi⟩)) := by
  rw [selectOverall, selectGo_eq_selGo pkgs lats hpl hst leaked 0,
    selGo_first_max lats i hi leaked 0 hpos hmax hfirst]

/-- Activity with native code `I` (rank 3). -/
def upsActRank3 : UpsActivity :=
  ⟨some ⟨some "I", some "In Transit"⟩, some "20240101", some "010000", none⟩

/-- Activity with native code `X` (rank 9). -/
def upsActRank9 : UpsActivity :=
  ⟨some ⟨some "X", some "Exception"⟩, some "20240102", some "020000", none⟩

/-- Activity with native code `NA` (rank 7). -/
def upsActRank7 : UpsActivity :=
  ⟨some ⟨some "NA", some "Not Available"⟩, some "20240103", some "030000", none⟩

/-- First activity with native code `M` (rank 5). -/
def upsActRank5a : UpsActivity :=
  ⟨some ⟨some "M", some "Billing Information Received"⟩, some "20240104", some "040000", none⟩

/-- Second activity with native code `M` (rank 5). -/
def upsActRank5b : UpsActivity :=
  ⟨some ⟨some "M", some "Billing Information Received"⟩, some "20240105", some "050000", none⟩

/-- Three packages whose latest activities rank 3, 9, 7. -/
def upsPkgs397 : List UpsPackage :=
  [⟨.one upsActRank3⟩, ⟨.one upsActRank9⟩, ⟨.one upsActRank7⟩]

/-- Two packages whose latest activities tie at rank 5. -/
def upsPkgs55 : List UpsPackage :=
  [⟨.one upsActRank5a⟩, ⟨.one upsActRank5b⟩]

theorem upsMultiPackage_highestRank_firstSeen_witness :
    selectOverall none upsPkgs397 = .ok (.one upsActRank9) ∧
    selectOverall none upsPkgs55 = .ok (.one upsActRank5a) :=
  ⟨upsMultiPackage_highestRank_firstSeen upsPkgs397 [upsActRank3, upsActRank9, upsActRank7]
      (List.Forall₂.cons rfl (List.Forall₂.cons rfl (List.Forall₂.cons rfl List.Forall₂.nil)))
      (by decide) 1 (by decide) (by decide) (by decide) (by decide) none,
   upsMultiPackage_highestRank_firstSeen upsPkgs55 [upsActRank5a, upsActRank5b]
      (List.Forall₂.cons rfl (List.Forall₂.cons rfl List.Forall₂.nil))
      (by decide) 0 (by decide) (by decide) (by decide) (by decide) none⟩

/-! ## Record shape and field-extraction lemmas -/

/-- Success characterisation of `buildUpsRecord`: an `.ok` result pins
down every extraction step and every field of the produced record. -/
theorem buildUpsRecord_ok (tn : Option String) (pa : UpsActivity) (r : Record)
    (h : buildUpsRecord tn pa = .ok r) :
    ∃ d t dtv st code entry,
      pa.date = some d ∧ pa.time = some t ∧ strptimeUps (d ++ t) = some dtv ∧
      pa.status = some st ∧ st.statusType = some code ∧ upsStatusCodes code = some entry ∧
      r = mkUpsRecord (some (.dt dtv)) (tn.map .str)
        (match pa.address with
         | none => none
         | some ad => some (.str (pyUpper ((ad.countryCode.getD "---") ++ ", " ++
             (ad.stateProvinceCode.getD "---") ++ ", " ++ (ad.city.getD "---")))))
        (some (.str entry.generalStatus)) (st.description.map .str) := by
  simp only [buildUpsRecord] at h
  rcases hd : pa.date with _ | d
  · rcases ht0 : pa.time with _ | t0 <;> simp only [hd, ht0] at h <;> simp at h
  rcases ht : pa.time with _ | t
  · simp only [hd, ht] at h; simp at h
  simp only [hd, ht] at h
  rcases hparse : strptimeUps (d ++ t) with _ | dtv
  · simp only [hparse] at h; simp at h
  simp only [hparse] at h
  rcases hst : pa.status with _ | st
  · simp only [hst] at h; simp at h
  simp only [hst] at h
  rcases hsc : st.statusType with _ | code
  · simp only [hsc] at h; simp at h
  simp only [hsc] at h
  rcases hent : upsStatusCodes code with _ | entry
  · simp only [hent] at h; simp at h
  simp only [hent, Except.ok.injEq] at h
  exact ⟨d, t, dtv, st, code, entry, rfl, rfl, hparse, rfl, hsc, hent, h.symm⟩

theorem buildUpsRecord_keys (tn : Option String) (pa : UpsActivity) (r : Record)
    (h : buildUpsRecord tn pa = .ok r) : r.map Prod.fst = upsKeyOrder := by
  obtain ⟨d, t, dtv, st, code, entry, -, -, -, -, -, -, hr⟩ := buildUpsRecord_ok tn pa r h
  subst hr; rfl

theorem simplifyUpsStep_keys (leaked : Option ActNode) (resp : UpsResp) (r : Record)
    (leaked' : Option ActNode) (h : simplifyUpsStep leaked resp = .ok (r, leaked')) :
    r.map Prod.fst = upsKeyOrder := by
  rcases hp : resp.package with p | pkgs
  · simp only [simplifyUpsStep, hp] at h
    rcases h2 : pickPackageActivity p.activity with e | pa
    · simp only [h2] at h; simp at h
    simp only [h2] at h
    rcases h3 : buildUpsRecord resp.inquiryValue pa with e | r0
    · simp only [h3] at h; simp at h
    simp only [h3, Except.ok.injEq, Prod.mk.injEq] at h
    obtain ⟨hr, -⟩ := h
    subst hr
    exact buildUpsRecord_keys _ _ _ h3
  · simp only [simplifyUpsStep, hp] at h
    rcases h1 : selectOverall leaked pkgs with e | node
    · simp only [h1] at h; simp at h
    simp only [h1] at h
    rcases h2 : pickPackageActivity node with e | pa
    · simp only [h2] at h; simp at h
    simp only [h2] at h
    rcases h3 : buildUpsRecord resp.inquiryValue pa with e | r0
    · simp only [h3] at h; simp at h
    simp only [h3, Except.ok.injEq, Prod.mk.injEq] at h
    obtain ⟨hr, -⟩ := h
    subst hr
    exact buildUpsRecord_keys _ _ _ h3

theorem simplifyUpsGo_keys :
    ∀ (resps : List UpsResp) (leaked : Option ActNode) (out : List Record),
      simplifyUpsGo leaked resps = .ok out → ∀ r ∈ out, r.map Prod.fst = upsKeyOrder
  | [], _, out, h => by
    simp only [simplifyUpsGo, Except.ok.injEq] at h
    subst h; intro r hr; cases hr
  | resp :: rest, leaked, out, h => by
    simp only [simplifyUpsGo] at h
    rcases h1 : simplifyUpsStep leaked resp with e | rl
    · simp only [h1] at h; simp at h
    obtain ⟨r0, leaked'⟩ := rl
    simp only [h1] at h
    rcases h2 : simplifyUpsGo leaked' rest with e | rs
    · simp only [h2] at h; simp at h
    simp only [h2, Except.ok.injEq] at h
    subst h
    intro r hr
    rcases List.mem_cons.1 hr with rfl | hr'
    · exact simplifyUpsStep_keys leaked resp r leaked' h1
    · exact simplifyUpsGo_keys rest leaked' rs h2 r hr'

/-- `simplifyUspsOne` on a mapping always yields the record with the
five literal fields of lines 345-351 (restated for rewriting). -/
theorem simplifyUspsOne_shape (t : UspsTrackInfo) :
    simplifyUspsOne (.node t) =
      some (mkUspsRecord (t.id.map .str) ((t.statusCategory.bind uspsStatusCodes).map .str)
        (match t.trackSummary with
         | none => none
         | some ts =>
           match ts.eventDate, ts.eventTime with
           | some d, some tm =>
             (match strptimeUsps (d ++ " " ++ tm) with
              | some parsed => some (.dt parsed)
              | none => none)
           | _, _ => none)
        (match t.trackSummary with
         | none => none
         | some ts =>
           match ts.eventCity, ts.eventState with
           | some c, some st => some (.str (pyUpper c ++ ", " ++ pyUpper st ++ ", US"))
           | _, _ => none)
        (match t.status, t.statusSummary with
         | some a, some b => some (.str (a ++ " - " ++ b))
         | _, _ => none)) := rfl

theorem simplifyUspsOne_keys (e : UspsEntry) (r : Record) (h : simplifyUspsOne e = some r) :
    r.map Prod.fst = uspsKeyOrder := by
  cases e with
  | str s => simp [simplifyUspsOne] at h
  | node t =>
    rw [simplifyUspsOne_shape] at h
    simp only [Option.some.injEq] at h
    subst h
    rfl

/-- Claim C10: every record either normaliser emits is a mapping with
exactly the five fields `trackingNumber`, `trackingStatus`,
`checkpointDate`, `checkpointLocation` and `checkpointStatusMessage` —
no more and no fewer, each key present in every emitted record
(possibly with a `None` value), in each carrier's fixed key order. -/
theorem normalizedRecord_fiveFields :
    (∀ (resps : List UpsResp) (leaked : Option ActNode) (out : List Record),
      simplifyUpsGo leaked resps = .ok out → ∀ r ∈ out, r.map Prod.fst = upsKeyOrder) ∧
    (∀ (entries : List UspsEntry) (r : Record), r ∈ simplifyUsps entries →
      r.map Prod.fst = uspsKeyOrder) := by
  refine ⟨simplifyUpsGo_keys, ?_⟩
  intro entries r hr
  rw [simplifyUsps] at hr
  obtain ⟨e, -, he⟩ := List.mem_filterMap.1 hr
  exact simplifyUspsOne_keys e r he

theorem normalizedRecord_fiveFields_witness :
    upsRecordLouisville.map Prod.fst = upsKeyOrder ∧
    uspsRecGood.map Prod.fst = uspsKeyOrder :=
  ⟨normalizedRecord_fiveFields.1 [upsRespLouisville] none [upsRecordLouisville] (by decide)
      upsRecordLouisville (by decide),
   normalizedRecord_fiveFields.2 [.node uspsInfoGood] uspsRecGood (by decide)⟩

/-- A UPS activity whose concatenated `Date + Time` does not parse. -/
def upsActBadDate : UpsActivity :=
  ⟨some ⟨some "D", none⟩, some "BAD!", some "X", none⟩

/-- A USPS track entry whose `EventDate + EventTime` does not parse. -/
def uspsInfoBadDate : UspsTrackInfo :=
  ⟨some "9400Z", none, some ⟨some "99:99", some "Nonsense", none, none⟩, none, none, none⟩

/-- Claim C6: checkpoint timestamps come from concatenating the
carrier's date and time fields and parsing with the fixed per-carrier
format: `"20240101" ++ "093000"` (UPS, `%Y%m%d%H%M%S`) and
`"January 1, 2024" ++ " " ++ "09:30 AM"` (USPS,
`%B %d, %Y %I:%M %p`) both give 2024-01-01T09:30:00; a parse failure
is unguarded on the UPS path (record construction aborts with the
raised error) and guarded on the USPS path (`checkpointDate` is set to
`None`, the record is still produced). -/
theorem checkpointTimestamp_spec :
    strptimeUps ("20240101" ++ "093000") = some ⟨2024, 1, 1, 9, 30, 0⟩ ∧
    strptimeUsps ("January 1, 2024" ++ " " ++ "09:30 AM") = some ⟨2024, 1, 1, 9, 30, 0⟩ ∧
    (∀ (tn : Option String) (pa : UpsActivity) (d t : String),
      pa.date = some d → pa.time = some t → strptimeUps (d ++ t) = none →
      buildUpsRecord tn pa = .error "ValueError") ∧
    (∀ (tn : Option String) (pa : UpsActivity) (d t : String) (dtv : DateTime) (r : Record),
      pa.date = some d → pa.time = some t → strptimeUps (d ++ t) = some dtv →
      buildUpsRecord tn pa = .ok r →
      List.lookup "checkpointDate" r = some (some (.dt dtv))) ∧
    (∀ (t : UspsTrackInfo), (simplifyUspsOne (.node t)).isSome = true) ∧
    (∀ (t : UspsTrackInfo) (ts : UspsTrackSummary) (d tm : String) (r : Record),
      t.trackSummary = some ts → ts.eventDate = some d → ts.eventTime = some tm →
      strptimeUsps (d ++ " " ++ tm) = none → simplifyUspsOne (.node t) = some r →
      List.lookup "checkpointDate" r = some none) := by
  refine ⟨by decide, by decide, ?_, ?_, ?_, ?_⟩
  · intro tn pa d t hd ht hp
    simp only [buildUpsRecord, hd, ht, hp]
  · intro tn pa d t dtv r hd ht hp hok
    obtain ⟨d', t', dtv', st, code, entry, hd', ht', hp', -, -, -, hr⟩ :=
      buildUpsRecord_ok tn pa r hok
    rw [hd] at hd'
    rw [ht] at ht'
    injection hd' with e1
    injection ht' with e2
    subst e1
    subst e2
    rw [hp] at hp'
    injection hp' with e3
    subst e3
    subst hr
    rw [lookup_ups_date]
  · intro t
    rw [simplifyUspsOne_shape]
    rfl
  · intro t ts d tm r hts hd htm hp hsome
    rw [simplifyUspsOne_shape] at hsome
    simp only [Option.some.injEq] at hsome
    subst hsome
    rw [lookup_usps_date]
    simp [hts, hd, htm, hp]

theorem checkpointTimestamp_spec_witness :
    buildUpsRecord none upsActBadDate = .error "ValueError" ∧
    List.lookup "checkpointDate" upsRecordLouisville = some (some (.dt ⟨2024, 1, 1, 9, 30, 0⟩)) ∧
    List.lookup "checkpointDate" (mkUspsRecord (some (.str "9400Z")) none none none none) =
      some none :=
  ⟨checkpointTimestamp_spec.2.2.1 none upsActBadDate "BAD!" "X" rfl rfl (by decide),
   checkpointTimestamp_spec.2.2.2.1 (some "1Z999AA10123456784") upsActLouisville
     "20240101" "093000" ⟨2024, 1, 1, 9, 30, 0⟩ upsRecordLouisville rfl rfl (by decide) (by decide),
   checkpointTimestamp_spec.2.2.2.2.2 uspsInfoBadDate ⟨some "99:99", some "Nonsense", none, none⟩
     "Nonsense" "99:99" (mkUspsRecord (some (.str "9400Z")) none none none none)
     rfl rfl rfl (by decide) (by decide)⟩

/-- Claim C2 (amended): when present, a UPS `checkpointLocation` is the
uppercased `"COUNTRY, STATE/PROVINCE, CITY"` string with missing
components replaced by the placeholder `---` (Louisville/KY/US gives
exactly `"US, KY, LOUISVILLE"`), and a missing address makes it `None`;
a USPS `checkpointLocation`, when present, is the uppercased
`"CITY, STATE, US"` string — city first, fixed country `"US"` last, the
reverse component order of the claimed uniform format — and any missing
sub-field (summary, city or state) makes the whole location `None`. -/
theorem checkpointLocation_spec :
    (∀ (tn : Option String) (pa : UpsActivity) (ad : UpsAddress) (r : Record),
      pa.address = some ad → buildUpsRecord tn pa = .ok r →
      List.lookup "checkpointLocation" r =
        some (some (.str (pyUpper ((ad.countryCode.getD "---") ++ ", " ++
          (ad.stateProvinceCode.getD "---") ++ ", " ++ (ad.city.getD "---")))))) ∧
    (∀ (tn : Option String) (pa : UpsActivity) (r : Record),
      pa.address = none → buildUpsRecord tn pa = .ok r →
      List.lookup "checkpointLocation" r = some none) ∧
    simplifyUps [upsRespLouisville] = .ok [upsRecordLouisville] ∧
    List.lookup "checkpointLocation" upsRecordLouisville =
      some (some (.str "US, KY, LOUISVILLE")) ∧
    (∀ (t : UspsTrackInfo) (ts : UspsTrackSummary) (c s : String) (r : Record),
      t.trackSummary = some ts → ts.eventCity = some c → ts.eventState = some s →
      simplifyUspsOne (.node t) = some r →
      List.lookup "checkpointLocation" r =
        some (some (.str (pyUpper c ++ ", " ++ pyUpper s ++ ", US")))) ∧
    (∀ (t : UspsTrackInfo) (r : Record),
      (t.trackSummary = none ∨
        ∃ ts, t.trackSummary = some ts ∧ (ts.eventCity = none ∨ ts.eventState = none)) →
      simplifyUspsOne (.node t) = some r →
      List.lookup "checkpointLocation" r = some none) := by
  refine ⟨?_, ?_, by decide, by decide, ?_, ?_⟩
  · intro tn pa ad r had hok
    obtain ⟨d, t, dtv, st, code, entry, -, -, -, -, -, -, hr⟩ := buildUpsRecord_ok tn pa r hok
    subst hr
    rw [lookup_ups_location]
    simp [had]
  · intro tn pa r had hok
    obtain ⟨d, t, dtv, st, code, entry, -, -, -, -, -, -, hr⟩ := buildUpsRecord_ok tn pa r hok
    subst hr
    rw [lookup_ups_location]
    simp [had]
  · intro t ts c s r hts hc hs hsome
    rw [simplifyUspsOne_shape] at hsome
    simp only [Option.some.injEq] at hsome
    subst hsome
    rw [lookup_usps_location]
    simp [hts, hc, hs]
  · intro t r hmiss hsome
    rw [simplifyUspsOne_shape] at hsome
    simp only [Option.some.injEq] at hsome
    subst hsome
    rw [lookup_usps_location]
    rcases hmiss with hts | ⟨ts, hts, hcs⟩
    · simp [hts]
    · rcases hcs with hc | hs
      · simp [hts, hc]
      · rcases hc2 : ts.eventCity with _ | c <;> simp [hts, hc2, hs]

theorem checkpointLocation_spec_witness :
    List.lookup "checkpointLocation" upsRecordLouisville =
      some (some (.str (pyUpper (("US" : String) ++ ", " ++ "KY" ++ ", " ++ "Louisville")))) ∧
    List.lookup "checkpointLocation" uspsRecGood =
      some (some (.str (pyUpper "Louisville" ++ ", " ++ pyUpper "KY" ++ ", US"))) ∧
    List.lookup "checkpointLocation" (mkUspsRecord (some (.str "9400Z")) none none none none) =
      some none :=
  ⟨checkpointLocation_spec.1 (some "1Z999AA10123456784") upsActLouisville
      ⟨some "Louisville", some "KY", some "US"⟩ upsRecordLouisville rfl (by decide),
   (checkpointLocation_spec.2.2.2.2.1 uspsInfoGood uspsSummaryLouisville "Louisville" "KY"
      uspsRecGood rfl rfl rfl (by decide)),
   checkpointLocation_spec.2.2.2.2.2 uspsInfoBadDate
      (mkUspsRecord (some (.str "9400Z")) none none none none)
      (Or.inr ⟨⟨some "99:99", some "Nonsense", none, none⟩, rfl, Or.inl rfl⟩) (by decide)⟩

/-! ## Batch-fetch lemmas: fail-rate warning and transport failures -/

/-- Recognise the raised-exception outcome of a UPS request. -/
def UpsNetResp.isRaised : UpsNetResp → Bool
  | .transportError _ => true
  | _ => false

/-- Recognise the raised-exception outcome of a USPS request. -/
def UspsNetResp.isRaised : UspsNetResp → Bool
  | .transportError _ => true
  | _ => false

/-- The identifiers recorded in `ups_failed`: one per `Fault` body. -/
def upsFaultCount : List (String × UpsNetResp) → Nat
  | [] => 0
  | (_, .fault) :: rest => upsFaultCount rest + 1
  | (_, .ok _) :: rest => upsFaultCount rest
  | (_, .transportError _) :: rest => upsFaultCount rest

/-- The successful bodies, in request order. -/
def upsSuccesses : List (String × UpsNetResp) → List UpsResp
  | [] => []
  | (_, .ok r) :: rest => r :: upsSuccesses rest
  | (_, .fault) :: rest => upsSuccesses rest
  | (_, .transportError _) :: rest => upsSuccesses rest

theorem trackUpsGo_ok :
    ∀ (reqs : List (String × UpsNetResp)) (acc : List UpsResp) (failed : Nat),
      (∀ x ∈ reqs, x.2.isRaised = false) →
      trackUpsGo reqs acc failed = .ok (acc ++ upsSuccesses reqs, failed + upsFaultCount reqs)
  | [], acc, failed, _ => by simp [trackUpsGo, upsSuccesses, upsFaultCount]
  | (n, .fault) :: rest, acc, failed, h => by
    rw [trackUpsGo, trackUpsGo_ok rest acc (failed + 1)
      (fun x hx => h x (List.mem_cons_of_mem _ hx))]
    simp only [upsSuccesses, upsFaultCount]
    have : failed + 1 + upsFaultCount rest = failed + (upsFaultCount rest + 1) := by omega
    rw [this]
  | (n, .ok r) :: rest, acc, failed, h => by
    rw [trackUpsGo, trackUpsGo_ok rest (acc ++ [r]) failed
      (fun x hx => h x (List.mem_cons_of_mem _ hx))]
    simp [upsSuccesses, upsFaultCount]
  | (n, .transportError m) :: rest, acc, failed, h => by
    have := h (n, .transportError m) (List.mem_cons_self _ _)
    simp [UpsNetResp.isRaised] at this

theorem trackUspsGo_no_exc :
    ∀ (reqs : List (String × UspsNetResp)) (acc : List UspsEntry),
      (∀ x ∈ reqs, x.2.isRaised = false) → (trackUspsGo reqs acc).2 = none
  | [], _, _ => rfl
  | (n, .ok node) :: rest, acc, h =>
    trackUspsGo_no_exc rest (acc ++ pyExtend node)
      (fun x hx => h x (List.mem_cons_of_mem _ hx))
  | (n, .transportError m) :: rest, acc, h => by
    have := h (n, .transportError m) (List.mem_cons_self _ _)
    simp [UspsNetResp.isRaised] at this

/-- Claim C5 (amended): the fail-rate computation and its `> 0.05`
warning exist only in the UPS fetch loop.  For a UPS batch that raises
no exception, the fetch returns exactly the successful bodies together
with the warning flag, and the flag is set iff
`failed / total > 1/20` in exact arithmetic (so 2 faults in 20 warn,
1 fault in 20 does not).  A USPS batch that raises no exception emits
no diagnostic at all, whatever the responses contain. -/
theorem failRateWarning_upsOnly
    (ups : List (String × UpsNetResp)) (usps : List (String × UspsNetResp))
    (hups : ∀ x ∈ ups, x.2.isRaised = false) (hne : ups ≠ [])
    (husps : ∀ x ∈ usps, x.2.isRaised = false) :
    trackUpsFetch ups =
      .ok (upsSuccesses ups, failRateWarning (upsFaultCount ups) ups.length) ∧
    (failRateWarning (upsFaultCount ups) ups.length = true ↔
      (upsFaultCount ups : ℚ) / (ups.length : ℚ) > 1 / 20) ∧
    (trackUspsFetch usps).2 = none ∧
    failRateWarning 2 20 = true ∧
    failRateWarning 1 20 = false := by
  have hlen : ups.length ≠ 0 := by
    cases ups with
    | nil => exact absurd rfl hne
    | cons a l => simp
  refine ⟨?_, ?_, trackUspsGo_no_exc usps [] husps, by decide, by decide⟩
  · rw [trackUpsFetch, trackUpsGo_ok ups [] 0 hups]
    simp [hlen]
  · exact failRateWarning_iff (upsFaultCount ups) ups.length (Nat.pos_of_ne_zero hlen)

/-- A 20-request UPS batch with exactly 2 `Fault` bodies (10%). -/
def upsBatch2of20 : List (String × UpsNetResp) :=
  List.replicate 18 ("1Zok", UpsNetResp.ok upsRespLouisville) ++
  [("1Zf1", .fault), ("1Zf2", .fault)]

theorem failRateWarning_upsOnly_witness :
    trackUpsFetch upsBatch2of20 =
      .ok (upsSuccesses upsBatch2of20,
        failRateWarning (upsFaultCount upsBatch2of20) upsBatch2of20.length) ∧
    (trackUspsFetch uspsBatch20).2 = none :=
  ⟨(failRateWarning_upsOnly upsBatch2of20 uspsBatch20 (by decide) (by decide) (by decide)).1,
   (failRateWarning_upsOnly upsBatch2of20 uspsBatch20 (by decide) (by decide) (by decide)).2.2.1⟩

theorem trackUspsGo_stops_at_exc
    (url m : String) (rest : List (String × UspsNetResp)) :
    ∀ (pre : List (String × UspsNetResp)) (nodes : List (ListOr UspsTrackInfo)),
      List.Forall₂ (fun x n => x.2 = UspsNetResp.ok n) pre nodes →
      ∀ (acc : List UspsEntry),
        trackUspsGo (pre ++ (url, UspsNetResp.transportError m) :: rest) acc =
          (acc ++ (nodes.map pyExtend).flatten, some ("Failed at request " ++ url)) := by
  intro pre nodes h
  induction h with
  | nil => intro acc; simp [trackUspsGo]
  | cons hx hrest ih =>
    rename_i x n pre' nodes'
    intro acc
    obtain ⟨xu, xr⟩ := x
    simp only at hx
    subst hx
    rw [List.cons_append, trackUspsGo, ih (acc ++ pyExtend n)]
    simp [List.append_assoc]

theorem trackUpsGo_propagates_exc
    (u m : String) (restU : List (String × UpsNetResp)) :
    ∀ (pre : List (String × UpsNetResp)),
      (∀ x ∈ pre, x.2.isRaised = false) →
      ∀ (acc : List UpsResp) (failed : Nat),
        trackUpsGo (pre ++ (u, UpsNetResp.transportError m) :: restU) acc failed = .error m
  | [], _, acc, failed => rfl
  | (n, .fault) :: rest, h, acc, failed =>
    trackUpsGo_propagates_exc u m restU rest
      (fun x hx => h x (List.mem_cons_of_mem _ hx)) acc (failed + 1)
  | (n, .ok r) :: rest, h, acc, failed =>
    trackUpsGo_propagates_exc u m restU rest
      (fun x hx => h x (List.mem_cons_of_mem _ hx)) (acc ++ [r]) failed
  | (n, .transportError m2) :: rest, h, acc, failed => by
    have := h (n, .transportError m2) (List.mem_cons_self _ _)
    simp [UpsNetResp.isRaised] at this

/-- Claim C7: a raised transport/decoding exception inside the USPS
batch loop stops the loop early, returns exactly the entries
accumulated from the requests before it, and prints the diagnostic
`Failed at request <url>` naming the in-flight request; the UPS loop
has no guard, so the first raised exception propagates to the caller. -/
theorem transportFailure_asymmetry
    (pre : List (String × UspsNetResp)) (nodes : List (ListOr UspsTrackInfo))
    (hpn : List.Forall₂ (fun x n => x.2 = UspsNetResp.ok n) pre nodes)
    (url m : String) (rest : List (String × UspsNetResp))
    (preU : List (String × UpsNetResp)) (hU : ∀ x ∈ preU, x.2.isRaised = false)
    (u m2 : String) (restU : List (String × UpsNetResp)) :
    trackUspsFetch (pre ++ (url, UspsNetResp.transportError m) :: rest) =
      ((nodes.map pyExtend).flatten, some ("Failed at request " ++ url)) ∧
    trackUpsFetch (preU ++ (u, UpsNetResp.transportError m2) :: restU) = .error m2 := by
  constructor
  · rw [trackUspsFetch, trackUspsGo_stops_at_exc url m rest pre nodes hpn []]
    simp
  · rw [trackUpsFetch, trackUpsGo_propagates_exc u m2 restU preU hU [] 0]

theorem transportFailure_asymmetry_witness :
    trackUspsFetch [("u1", .ok (.many [uspsInfoGood])), ("u2", .transportError "boom"),
        ("u3", .ok (.many [uspsInfoGood]))] =
      (([ListOr.many [uspsInfoGood]].map pyExtend).flatten, some ("Failed at request " ++ "u2")) ∧
    trackUpsFetch [("a", .ok upsRespLouisville), ("b", .transportError "JSONDecodeError"),
        ("c", .fault)] = .error "JSONDecodeError" :=
  transportFailure_asymmetry [("u1", .ok (.many [uspsInfoGood]))] [ListOr.many [uspsInfoGood]]
    (List.Forall₂.cons rfl List.Forall₂.nil) "u2" "boom" [("u3", .ok (.many [uspsInfoGood]))]
    [("a", .ok upsRespLouisville)] (by decide) "b" "JSONDecodeError" [("c", .fault)]

theorem chunkList_nil {α : Type u} (k : Nat) : chunkList k ([] : List α) = [] := by
  cases k <;> simp [chunkList]

theorem chunkList_cons {α : Type u} (k : Nat) (a : α) (l : List α) :
    chunkList (k + 1) (a :: l) =
      ((a :: l).take (k + 1)) :: chunkList (k + 1) ((a :: l).drop (k + 1)) := by
  rw [chunkList]

theorem chunkList_length {α : Type u} (k : Nat) :
    ∀ (l : List α), (chunkList (k + 1) l).length = (l.length + k) / (k + 1)
  | [] => by
    rw [chunkList_nil]
    simp only [List.length_nil, Nat.zero_add]
    exact (Nat.div_eq_of_lt (by omega)).symm
  | a :: l => by
    rw [chunkList_cons, List.length_cons, chunkList_length k ((a :: l).drop (k + 1))]
    rw [List.length_drop, List.length_cons]
    have hr : l.length + 1 + k = l.length + (k + 1) := by omega
    rw [hr, Nat.add_div_right _ (Nat.succ_pos k)]
    simp only [Nat.succ_eq_add_one]
    rcases le_or_lt l.length k with hle | hlt
    · have h0 : l.length + 1 - (k + 1) = 0 := by omega
      rw [h0]
      have h1 : (0 + k) / (k + 1) = 0 := Nat.div_eq_of_lt (by omega)
      have h2 : l.length / (k + 1) = 0 := Nat.div_eq_of_lt (by omega)
      omega
    · have h0 : l.length + 1 - (k + 1) + k = l.length := by omega
      rw [h0]
termination_by l => l.length
decreasing_by simp [List.length_drop]; omega

theorem chunkList_flatten {α : Type u} (k : Nat) :
    ∀ (l : List α), (chunkList (k + 1) l).flatten = l
  | [] => by rw [chunkList_nil]; rfl
  | a :: l => by
    rw [chunkList_cons, List.flatten_cons, chunkList_flatten k ((a :: l).drop (k + 1))]
    exact List.take_append_drop _ _
termination_by l => l.length
decreasing_by simp [List.length_drop]; omega

theorem chunkList_chunk_length {α : Type u} (k : Nat) :
    ∀ (l : List α) (i : Nat) (hi : i < (chunkList (k + 1) l).length),
      ((chunkList (k + 1) l).get ⟨i, hi⟩).length =
        if i + 1 < (chunkList (k + 1) l).length then k + 1
        else if l.length % (k + 1) = 0 then k + 1 else l.length % (k + 1)
  | [], i, hi => absurd hi (by simp [chunkList_nil])
  | a :: l, 0, hi => by
    revert hi
    rw [chunkList_cons]
    intro hi
    have hget : (((a :: l).take (k + 1)) :: chunkList (k + 1) ((a :: l).drop (k + 1))).get
        ⟨0, hi⟩ = (a :: l).take (k + 1) := rfl
    rw [hget, List.length_take]
    by_cases hc : (a :: l).length ≤ k + 1
    · have hdrop : (a :: l).drop (k + 1) = [] := List.drop_eq_nil_of_le hc
      rw [hdrop, chunkList_nil]
      simp only [List.length_cons, List.length_nil] at hc ⊢
      rw [if_neg (by omega)]
      have hmin : min (k + 1) (l.length + 1) = l.length + 1 := by omega
      rw [hmin]
      rcases Nat.lt_or_ge (l.length + 1) (k + 1) with hlt | hge
      · rw [Nat.mod_eq_of_lt hlt, if_neg (by omega)]
      · have heq : l.length + 1 = k + 1 := by omega
        rw [heq, Nat.mod_self, if_pos rfl]
    · push_neg at hc
      have hlen : 0 < (chunkList (k + 1) ((a :: l).drop (k + 1))).length := by
        rcases hd2 : (a :: l).drop (k + 1) with _ | ⟨b, t⟩
        · exfalso
          have hle := List.drop_eq_nil_iff.1 hd2
          omega
        · rw [chunkList_cons]
          simp
      have hc1 : 0 + 1 <
          (((a :: l).take (k + 1)) :: chunkList (k + 1) ((a :: l).drop (k + 1))).length := by
        simp only [List.length_cons]
        omega
      rw [if_pos hc1]
      simp only [List.length_cons] at hc ⊢
      omega
  | a :: l, i + 1, hi => by
    revert hi
    rw [chunkList_cons]
    intro hi
    have hi' : i < (chunkList (k + 1) ((a :: l).drop (k + 1))).length := by
      simp only [List.length_cons] at hi
      omega
    have hget : (((a :: l).take (k + 1)) :: chunkList (k + 1) ((a :: l).drop (k + 1))).get
        ⟨i + 1, hi⟩ = (chunkList (k + 1) ((a :: l).drop (k + 1))).get ⟨i, hi'⟩ := rfl
    have hne : (a :: l).drop (k + 1) ≠ [] := by
      intro h0
      rw [h0, chunkList_nil] at hi'
      cases hi'
    have hbig : k + 1 < (a :: l).length := by
      by_contra hle
      push_neg at hle
      exact hne (List.drop_eq_nil_of_le hle)
    have hmod : (a :: l).length % (k + 1) = ((a :: l).drop (k + 1)).length % (k + 1) := by
      rw [List.length_drop]
      have hsplit : (a :: l).length = ((a :: l).length - (k + 1)) + (k + 1) := by omega
      conv_lhs => rw [hsplit]
      rw [Nat.add_mod_right]
    rw [hget, chunkList_chunk_length k ((a :: l).drop (k + 1)) i hi', hmod]
    simp only [List.length_cons, Nat.add_lt_add_iff_right]
termination_by l => l.length
decreasing_by all_goals simp [List.length_drop]; omega

/-- Claim C8: for every chunk size k > 0 and input list of length n,
`chunk_list` produces ⌈n/k⌉ chunks; every chunk except possibly the
last has length exactly k, the last has length n mod k when that is
nonzero and k otherwise; concatenating the chunks in order reproduces
the input; and the USPS request builder applies this with the fixed
chunk size 10. -/
theorem chunkList_spec {α : Type u} (k : Nat) (hk : 0 < k) (l : List α) :
    (chunkList k l).length = (l.length + k - 1) / k ∧
    (chunkList k l).flatten = l ∧
    (∀ i (hi : i < (chunkList k l).length), i + 1 < (chunkList k l).length →
      ((chunkList k l).get ⟨i, hi⟩).length = k) ∧
    (∀ i (hi : i < (chunkList k l).length), i + 1 = (chunkList k l).length →
      ((chunkList k l).get ⟨i, hi⟩).length =
        if l.length % k = 0 then k else l.length % k) ∧
    (∀ ls : List String, trackUspsChunks ls = chunkList 10 ls) := by
  obtain ⟨k', rfl⟩ : ∃ k', k = k' + 1 := ⟨k - 1, by omega⟩
  refine ⟨?_, chunkList_flatten k' l, ?_, ?_, fun ls => rfl⟩
  · rw [chunkList_length k' l]
    have harg : l.length + (k' + 1) - 1 = l.length + k' := by omega
    rw [harg]
  · intro i hi hlt
    rw [chunkList_chunk_length k' l i hi, if_pos hlt]
  · intro i hi heq
    rw [chunkList_chunk_length k' l i hi, if_neg (by omega)]

theorem chunkList_spec_witness :
    (chunkList 2 ["a", "b", "c", "d", "e"]).length = (5 + 2 - 1) / 2 ∧
    (chunkList 2 ["a", "b", "c", "d", "e"]).flatten = ["a", "b", "c", "d", "e"] :=
  ⟨(chunkList_spec 2 (by decide) ["a", "b", "c", "d", "e"]).1,
   (chunkList_spec 2 (by decide) ["a", "b", "c", "d", "e"]).2.1⟩
